import Mathlib

/-!
Verification development for the ppt_generator repository.

Part 1 models the JavaScript theme utilities of the React frontend
(src/frontend/ppt-generator-ui): the theme registry in config/theme.jsx,
the style resolution in utils/theme-utils.js, the provider state in
context/theme-context.jsx and hooks/use-theme.js, and the generic path
lookup getThemeValue.  JavaScript records with optional sub-objects are
modelled as Lean structures of Option fields; reading a property of an
undefined sub-object is the JavaScript TypeError, modelled with Except.

Part 2 models, from the specification, the layout pipeline (normalizer,
classifier, variety enforcement, fit validation) whose implementation
(the Python backend) is not part of the source tree.
-/

/-- A JavaScript runtime error: reading property `prop` of undefined or null. -/
inductive JsError where
  | typeError (prop : String)
deriving DecidableEq, Repr

/-- A JavaScript value, as needed for theme objects: undefined, null,
strings, numbers and plain objects (ordered field lists). -/
inductive JsValue where
  | undefined
  | null
  | str (s : String)
  | num (n : Int)
  | obj (fields : List (String × JsValue))
deriving Repr

/-- Field lookup in a JavaScript object (first binding wins). -/
def fieldLookup : List (String × JsValue) → String → Option JsValue
  | [], _ => none
  | (k, v) :: rest, key => if k = key then some v else fieldLookup rest key

/-- Property access `v[k]`.  Access on undefined or null throws a TypeError;
access on an object yields the field or undefined; access on a primitive is
modelled as undefined (no prototype properties are modelled). -/
def getProp : JsValue → String → Except JsError JsValue
  | .undefined, k => .error (.typeError k)
  | .null, k => .error (.typeError k)
  | .obj fs, k => .ok ((fieldLookup fs k).getD .undefined)
  | .str _, _ => .ok .undefined
  | .num _, _ => .ok .undefined

/-- Is this value the undefined value? -/
def isUndef : JsValue → Bool
  | .undefined => true
  | _ => false

/-- The loop body of getThemeValue from hooks/use-theme.js: walk the path
segments; break (returning the current value) as soon as it is undefined,
otherwise access the next segment (which can throw on null). -/
def getThemeValueGo : JsValue → List String → Except JsError JsValue
  | v, [] => .ok v
  | v, p :: ps =>
    if isUndef v then .ok v
    else
      match getProp v p with
      | .error e => .error e
      | .ok v2 => getThemeValueGo v2 ps

/-- Helper for splitDot: accumulate the current segment (reversed). -/
def splitDotGo (cur : List Char) : List Char → List String
  | [] => [String.mk cur.reverse]
  | c :: rest =>
    if c = '.' then String.mk cur.reverse :: splitDotGo [] rest
    else splitDotGo (c :: cur) rest

/-- JavaScript path.split of a string on the dot separator:
the empty string gives one empty segment, and consecutive dots give
empty segments, exactly as String.prototype.split does. -/
def splitDot (s : String) : List String :=
  splitDotGo [] s.data

/-- getThemeValue from hooks/use-theme.js: split the path on dots and
follow the segments from the theme value. -/
def getThemeValue (theme : JsValue) (path : String) : Except JsError JsValue :=
  getThemeValueGo theme (splitDot path)

mutual

/-- No null value occurs anywhere in this value. -/
def nullFree : JsValue → Bool
  | .undefined => true
  | .null => false
  | .str _ => true
  | .num _ => true
  | .obj fs => nullFreeFields fs

/-- No null value occurs in this field list. -/
def nullFreeFields : List (String × JsValue) → Bool
  | [] => true
  | (_, v) :: rest => nullFree v && nullFreeFields rest

end

/-- Total traversal used to state what getThemeValue computes when it does
not throw: follow the path, yielding undefined as soon as a segment is
missing or a primitive is reached. -/
def jsLookupSafe : JsValue → List String → JsValue
  | v, [] => v
  | .obj fs, p :: ps => jsLookupSafe ((fieldLookup fs p).getD .undefined) ps
  | _, _ :: _ => .undefined


/-! ### Theme records (config/theme.jsx)

A theme is a JavaScript record; sub-objects that a given entry may lack
(gradients, patterns) are Option fields, and so is every leaf, since a
custom theme object can omit anything.  The fonts.sizes sub-record is
never read by any modelled function and is omitted. -/

/-- The colors sub-object of a theme entry. -/
structure ColorSet where
  primary : Option String
  secondary : Option String
  accent : Option String
  background : Option String
  background_end : Option String
  text : Option String
  text_secondary : Option String
  text_light : Option String
deriving DecidableEq, Repr

/-- The fonts sub-object of a theme entry. -/
structure FontSet where
  title : Option String
  content : Option String
  heading : Option String
  body : Option String
deriving DecidableEq, Repr

/-- The gradients sub-object (only modern_gradient has one). -/
structure GradientSet where
  primary : Option String
  secondary : Option String
  accent : Option String
deriving DecidableEq, Repr

/-- The patterns sub-object (no registered theme has one). -/
structure PatternSet where
  dots : Option String
deriving DecidableEq, Repr

/-- A theme object. gradientAngle models gradient.angle. -/
structure Theme where
  id : Option String
  name : Option String
  colors : Option ColorSet
  fonts : Option FontSet
  gradientAngle : Option Int
  iconStyle : Option String
  layoutPreference : Option String
  gradients : Option GradientSet
  patterns : Option PatternSet
deriving DecidableEq, Repr

/-- The Corporate Blue entry of defaultThemes. -/
def corporate_blue : Theme :=
  { id := some "corporate_blue"
    name := some "Corporate Blue"
    colors := some
      { primary := some "#1a73e8", secondary := some "#4285f4"
        accent := some "#34a853", background := some "#ffffff"
        background_end := some "#f8f9fa", text := some "#202124"
        text_secondary := some "#5f6368", text_light := some "#ffffff" }
    fonts := some
      { title := some "Arial", content := some "Roboto"
        heading := some "Arial", body := some "Roboto" }
    gradientAngle := some 135
    iconStyle := some "modern"
    layoutPreference := some "balanced"
    gradients := none
    patterns := none }

/-- The Elegant Dark entry of defaultThemes. -/
def elegant_dark : Theme :=
  { id := some "elegant_dark"
    name := some "Elegant Dark"
    colors := some
      { primary := some "#9333ea", secondary := some "#6366f1"
        accent := some "#ec4899", background := some "#18181b"
        background_end := some "#27272a", text := some "#ffffff"
        text_secondary := some "#a1a1aa", text_light := some "#ffffff" }
    fonts := some
      { title := some "Playfair Display", content := some "Inter"
        heading := some "Playfair Display", body := some "Inter" }
    gradientAngle := some 135
    iconStyle := some "minimal"
    layoutPreference := some "balanced"
    gradients := none
    patterns := none }

/-- The Nature Green entry of defaultThemes. -/
def nature_green : Theme :=
  { id := some "nature_green"
    name := some "Nature Green"
    colors := some
      { primary := some "#059669", secondary := some "#10b981"
        accent := some "#34d399", background := some "#f0fdf4"
        background_end := some "#dcfce7", text := some "#064e3b"
        text_secondary := some "#059669", text_light := some "#ffffff" }
    fonts := some
      { title := some "Montserrat", content := some "Source Sans Pro"
        heading := some "Montserrat", body := some "Source Sans Pro" }
    gradientAngle := some 120
    iconStyle := some "creative"
    layoutPreference := some "visual_focused"
    gradients := none
    patterns := none }

/-- The Modern Gradient entry of defaultThemes (the only one with gradients). -/
def modern_gradient : Theme :=
  { id := some "modern_gradient"
    name := some "Modern Gradient"
    colors := some
      { primary := some "#6366f1", secondary := some "#8b5cf6"
        accent := some "#ec4899", background := some "#ffffff"
        background_end := some "#f3f4f6", text := some "#111827"
        text_secondary := some "#4b5563", text_light := some "#ffffff" }
    fonts := some
      { title := some "Inter", content := some "Inter"
        heading := some "Inter", body := some "Inter" }
    gradientAngle := some 145
    iconStyle := some "modern"
    layoutPreference := some "visual_focused"
    gradients := some
      { primary := some "linear-gradient(145deg, #6366f1, #8b5cf6)"
        secondary := some "linear-gradient(145deg, #8b5cf6, #ec4899)"
        accent := some "linear-gradient(145deg, #ec4899, #6366f1)" }
    patterns := none }

/-- The registered themes, in the order of config/theme.jsx. -/
def defaultThemesList : List Theme :=
  [corporate_blue, elegant_dark, nature_green, modern_gradient]

/-- The own entries of the defaultThemes object literal. -/
def registryLookup (themeId : String) : Option Theme :=
  if themeId = "corporate_blue" then some corporate_blue
  else if themeId = "elegant_dark" then some elegant_dark
  else if themeId = "nature_green" then some nature_green
  else if themeId = "modern_gradient" then some modern_gradient
  else none

/-- The property names an object literal inherits from Object.prototype:
accessing any of them on defaultThemes yields a truthy value (a function,
or the Object.prototype object itself for the dunder proto accessor)
even though the key is no registered theme. -/
def protoMember (key : String) : Bool :=
  key = "constructor" || key = "hasOwnProperty" || key = "isPrototypeOf" ||
  key = "propertyIsEnumerable" || key = "toLocaleString" || key = "toString" ||
  key = "valueOf" || key = "__proto__" || key = "__defineGetter__" ||
  key = "__defineSetter__" || key = "__lookupGetter__" || key = "__lookupSetter__"

/-- What a property access on the defaultThemes object can yield when it
is not undefined: one of its own theme entries, or a member inherited
from Object.prototype (tagged by its name; always truthy, never a theme). -/
inductive ThemeValue where
  | themeObj (t : Theme)
  | protoFn (name : String)
deriving DecidableEq, Repr

/-- The JavaScript property access defaultThemes[themeId]: an own entry
for the four registered keys, an inherited Object.prototype member for
its property names, and undefined (none) otherwise. -/
def registryAccess (themeId : String) : Option ThemeValue :=
  match registryLookup themeId with
  | some t => some (ThemeValue.themeObj t)
  | none => if protoMember themeId then some (ThemeValue.protoFn themeId) else none

/-! ### Style resolution (utils/theme-utils.js)

generateSlideStyles first computes baseStyles, then builds the whole
slideTypes object literal.  JavaScript object literals are eager: every
branch's property reads happen before the requested type is selected.
A two-level read such as theme.gradients.primary throws a TypeError
when theme.gradients is undefined; the thrown error is named after the
property being read, as in the JavaScript message.  A role that repeats
an earlier read of the same sub-object is not re-modelled, since its
outcome is fixed by the first read. -/

/-- Read role f of an optional sub-object (theme.sub.prop): a missing
sub-object throws, a missing role merely yields undefined. -/
def readSub {A : Type} (sub : Option A) (f : A → Option String) (prop : String) :
    Except JsError (Option String) :=
  match sub with
  | none => Except.error (JsError.typeError prop)
  | some x => Except.ok (f x)

/-- The style properties a resolved slide style can carry (one field per
distinct CSS assignment in theme-utils.js). -/
structure SlideStyles where
  background : Option String
  color : Option String
  fontFamily : Option String
  headingFontFamily : Option String
  headingColor : Option String
  strongColor : Option String
  figcaptionColor : Option String
  blockquoteBorder : Option String
  citeColor : Option String
deriving DecidableEq, Repr

/-- The slideTypes table of generateSlideStyles.  The field for the
section slide type is called sectionType because section is a Lean
keyword. -/
structure StyleTable where
  title : SlideStyles
  sectionType : SlideStyles
  content : SlideStyles
  image : SlideStyles
  quote : SlideStyles
deriving DecidableEq, Repr

/-- Build the slideTypes table, performing every theme read the object
literal performs, in source order. -/
def buildStyleTable (theme : Theme) : Except JsError StyleTable := do
  let bg ← readSub theme.colors (fun c => c.background) "background"
  let txt ← readSub theme.colors (fun c => c.text) "text"
  let fBody ← readSub theme.fonts (fun f => f.body) "body"
  let base : SlideStyles :=
    { background := bg, color := txt, fontFamily := fBody
      headingFontFamily := none, headingColor := none, strongColor := none
      figcaptionColor := none, blockquoteBorder := none, citeColor := none }
  let gradP ← readSub theme.gradients (fun g => g.primary) "primary"
  let fHead ← readSub theme.fonts (fun f => f.heading) "heading"
  let gradS ← readSub theme.gradients (fun g => g.secondary) "secondary"
  let cPrim ← readSub theme.colors (fun c => c.primary) "primary"
  let cSec ← readSub theme.colors (fun c => c.secondary) "secondary"
  let patDots ← readSub theme.patterns (fun p => p.dots) "dots"
  Except.ok
    { title := { base with background := gradP, color := some "#ffffff"
                           headingFontFamily := fHead }
      sectionType := { base with background := gradS, color := some "#ffffff"
                                 headingFontFamily := fHead }
      content := { base with headingColor := cPrim, headingFontFamily := fHead
                             strongColor := cSec }
      image := { base with figcaptionColor := cSec }
      quote := { base with background := patDots
                           blockquoteBorder :=
                             some ("4px solid " ++ cPrim.getD "undefined")
                           citeColor := cSec } }

/-- slideTypes[type] || slideTypes.content, where a missing type argument
became the string default, which is not a key of the table. -/
def selectStyle (tbl : StyleTable) (ty : Option String) : SlideStyles :=
  match ty with
  | some "title" => tbl.title
  | some "section" => tbl.sectionType
  | some "content" => tbl.content
  | some "image" => tbl.image
  | some "quote" => tbl.quote
  | _ => tbl.content

/-- generateSlideStyles from utils/theme-utils.js: build the table (the
throwing part), then index it. -/
def generateSlideStyles (theme : Theme) (ty : Option String) :
    Except JsError SlideStyles :=
  match buildStyleTable theme with
  | .error e => .error e
  | .ok tbl => .ok (selectStyle tbl ty)

/-- The transition table of generateTransitionStyles, which reads nothing
from the theme; each entry is abstracted by its transition CSS string. -/
structure TransitionTable where
  fade : String
  slide : String
  scale : String
deriving DecidableEq, Repr

/-- generateTransitionStyles from utils/theme-utils.js. -/
def generateTransitionStyles (_theme : Theme) : TransitionTable :=
  { fade := "opacity 300ms ease-in-out"
    slide := "transform 300ms ease-in-out"
    scale := "all 300ms ease-in-out" }

/-- A slide record as theme application sees it: its type, the content
fields, any further fields carried through the object spread, and the
styles and transition slots. -/
structure Slide where
  type : Option String
  title : Option String
  content : Option String
  extra : List (String × String)
  styles : Option SlideStyles
  transition : Option String
deriving DecidableEq, Repr

/-- applyThemeToSlide from utils/theme-utils.js: spread the slide and
overwrite styles and transition. -/
def applyThemeToSlide (slide : Slide) (theme : Theme) : Except JsError Slide :=
  match generateSlideStyles theme slide.type with
  | .error e => .error e
  | .ok styles =>
    .ok { slide with
      styles := some styles
      transition := some (generateTransitionStyles theme).fade }

/-- The presentation-level styles object. -/
structure BaseStyles where
  background : Option String
  color : Option String
  fontFamily : Option String
deriving DecidableEq, Repr

/-- A presentation record. -/
structure Presentation where
  title : Option String
  extra : List (String × String)
  slides : List Slide
  theme : Option String
  styles : Option BaseStyles
deriving DecidableEq, Repr

/-- presentation.slides.map(slide => applyThemeToSlide(slide, theme)):
slides are themed left to right and the first thrown error propagates. -/
def mapSlides (theme : Theme) : List Slide → Except JsError (List Slide)
  | [] => Except.ok []
  | s :: rest =>
    match applyThemeToSlide s theme with
    | .error e => .error e
    | .ok s2 =>
      match mapSlides theme rest with
      | .error e => .error e
      | .ok rest2 => .ok (s2 :: rest2)

/-- applyThemeToPresentation from utils/theme-utils.js. -/
def applyThemeToPresentation (p : Presentation) (theme : Theme) :
    Except JsError Presentation :=
  match mapSlides theme p.slides with
  | .error e => .error e
  | .ok slides =>
    match readSub theme.colors (fun c => c.background) "background" with
    | .error e => .error e
    | .ok bg =>
      match readSub theme.colors (fun c => c.text) "text" with
      | .error e => .error e
      | .ok txt =>
        match readSub theme.fonts (fun f => f.body) "body" with
        | .error e => .error e
        | .ok fBody =>
          .ok { p with
            slides := slides
            theme := theme.name
            styles := some { background := bg, color := txt, fontFamily := fBody } }

/-! ### Provider state (context/theme-context.jsx and hooks/use-theme.js) -/

/-- The ThemeProvider state: the selected registry key and the optional
custom theme object. -/
structure ThemeState where
  currentTheme : String
  customTheme : Option Theme
deriving DecidableEq, Repr

/-- switchTheme: the guard if (defaultThemes[themeId]) is a truthiness
test of the property access, so it passes for the four registered keys
and for inherited Object.prototype member names alike (the same guard
appears in theme-context.jsx and use-theme.js). -/
def switchTheme (st : ThemeState) (themeId : String) : ThemeState :=
  match registryAccess themeId with
  | some _ => { currentTheme := themeId, customTheme := none }
  | none => st

/-- setTheme from theme-context.jsx: any non-null object is accepted as
the custom theme (none models a non-object or null argument). -/
def setTheme (st : ThemeState) (cfg : Option Theme) : ThemeState :=
  match cfg with
  | some c => { st with customTheme := some c }
  | none => st

/-- The active theme of theme-context.jsx:
customTheme or defaultThemes[currentTheme] or defaultThemes.corporate_blue.
When the selection is an inherited prototype key the middle term is the
truthy inherited member, so the corporate_blue fallback does not fire. -/
def activeTheme (st : ThemeState) : ThemeValue :=
  match st.customTheme with
  | some c => ThemeValue.themeObj c
  | none =>
    match registryAccess st.currentTheme with
    | some v => v
    | none => ThemeValue.themeObj corporate_blue

/-- The active theme of use-theme.js, which has no corporate_blue
fallback and can be undefined. -/
def hookTheme (st : ThemeState) : Option ThemeValue :=
  match st.customTheme with
  | some c => some (ThemeValue.themeObj c)
  | none => registryAccess st.currentTheme

/-- The empty object produced by spreading undefined. -/
def emptyThemeObj : Theme :=
  { id := none, name := none, colors := none, fonts := none
    gradientAngle := none, iconStyle := none, layoutPreference := none
    gradients := none, patterns := none }

/-- The shallow object spread of two theme records: fields present in the
update override the base. -/
def mergeTheme (base upd : Theme) : Theme :=
  { id := upd.id.orElse (fun _ => base.id)
    name := upd.name.orElse (fun _ => base.name)
    colors := upd.colors.orElse (fun _ => base.colors)
    fonts := upd.fonts.orElse (fun _ => base.fonts)
    gradientAngle := upd.gradientAngle.orElse (fun _ => base.gradientAngle)
    iconStyle := upd.iconStyle.orElse (fun _ => base.iconStyle)
    layoutPreference := upd.layoutPreference.orElse (fun _ => base.layoutPreference)
    gradients := upd.gradients.orElse (fun _ => base.gradients)
    patterns := upd.patterns.orElse (fun _ => base.patterns) }

/-- updateCustomTheme from use-theme.js: merge the updates over the
previous custom theme, or over the property access of the current key,
or over the empty object.  Spreading an undefined base or an inherited
function contributes no fields (functions have no own enumerable
properties), so both cases merge over the empty object. -/
def updateCustomTheme (st : ThemeState) (upd : Theme) : ThemeState :=
  let base :=
    match st.customTheme with
    | some c => c
    | none =>
      match registryAccess st.currentTheme with
      | some (ThemeValue.themeObj t) => t
      | some (ThemeValue.protoFn _) => emptyThemeObj
      | none => emptyThemeObj
  { st with customTheme := some (mergeTheme base upd) }

/-- Every required color and font role is present (the roles the spec
lists for a ThemeSpec registry entry). -/
def fullyPopulated (t : Theme) : Bool :=
  match t.colors, t.fonts with
  | some c, some f =>
    c.primary.isSome && c.secondary.isSome && c.accent.isSome &&
    c.background.isSome && c.background_end.isSome && c.text.isSome &&
    c.text_secondary.isSome && c.text_light.isSome &&
    f.title.isSome && f.content.isSome && f.heading.isSome && f.body.isSome
  | _, _ => false

/-- Membership in the registered theme table. -/
def registeredTheme (t : Theme) : Prop :=
  t = corporate_blue ∨ t = elegant_dark ∨ t = nature_green ∨ t = modern_gradient

/-! ### PresentationThemeContext.jsx -/

/-- A theme entry of contexts/PresentationThemeContext.jsx (its layouts
sub-object is never read by the modelled operation and is omitted). -/
structure PresTheme where
  name : String
  primary : String
  secondary : String
  accent : String
  background : String
  text : String
deriving DecidableEq, Repr

/-- The Modern entry. -/
def presModern : PresTheme :=
  { name := "Modern", primary := "rgb(37, 99, 235)", secondary := "rgb(79, 70, 229)"
    accent := "rgb(236, 72, 153)", background := "rgb(249, 250, 251)"
    text := "rgb(17, 24, 39)" }

/-- The Elegant entry. -/
def presElegant : PresTheme :=
  { name := "Elegant", primary := "rgb(55, 65, 81)", secondary := "rgb(107, 114, 128)"
    accent := "rgb(234, 88, 12)", background := "rgb(255, 255, 255)"
    text := "rgb(17, 24, 39)" }

/-- The Vibrant entry. -/
def presVibrant : PresTheme :=
  { name := "Vibrant", primary := "rgb(236, 72, 153)", secondary := "rgb(217, 70, 239)"
    accent := "rgb(139, 92, 246)", background := "rgb(255, 255, 255)"
    text := "rgb(17, 24, 39)" }

/-- What a property access on the themes object of
PresentationThemeContext.jsx can yield when it is not undefined: an own
entry, or an inherited Object.prototype member. -/
inductive PresValue where
  | entry (t : PresTheme)
  | protoFn (name : String)
deriving DecidableEq, Repr

/-- The JavaScript property access themes[themeName] of
PresentationThemeContext.jsx, prototype chain included. -/
def presThemeAccess (nm : String) : Option PresValue :=
  if nm = "modern" then some (PresValue.entry presModern)
  else if nm = "elegant" then some (PresValue.entry presElegant)
  else if nm = "vibrant" then some (PresValue.entry presVibrant)
  else if protoMember nm then some (PresValue.protoFn nm)
  else none

/-- setTheme of PresentationThemeProvider: the provider stores the
accessed value itself whenever it is truthy, so an inherited prototype
member name makes that member the current theme. -/
def presSetTheme (cur : PresValue) (nm : String) : PresValue :=
  match presThemeAccess nm with
  | some v => v
  | none => cur

/-! ## Part 2: the layout pipeline, modelled from the spec

The Layout Classification, Variety-Enforcement and Fit-Validation engine
is described in the specification but its implementation (the Python
backend driven by src/prompt.md and src/todo.md) is not part of the
source tree.  The following definitions are modelled from the spec:
sections 4.1 (normalizer), 4.2 (classifier), 4.3 (variety enforcement)
and 4.5 (fit validator). -/

/-- A layout family. -/
inductive Family where
  | hero | twoColumn | cards | timeline | quoteBlock | imageFeature | plain
deriving DecidableEq, Repr

/-- The kind of a body block. -/
inductive BlockKind where
  | text | bullets | image | stat
deriving DecidableEq, Repr

/-- A body block: its kind and its text value. -/
structure Block where
  kind : BlockKind
  value : String
deriving DecidableEq, Repr

/-- A background mode. -/
inductive BgMode where
  | solid | gradient | image | pattern
deriving DecidableEq, Repr

/-- A slide kind of the input contract. -/
inductive RecordKind where
  | title | content | split | grid | timeline | quote | image
deriving DecidableEq, Repr

/-- Modelled from the spec: the canonical SlideDescriptor of section 3
(the accentColorToken plays no role in any claim and is omitted). -/
structure SlideDescriptor where
  index : Nat
  kind : RecordKind
  headline : Option String
  subtitle : Option String
  bodyBlocks : List Block
  background : BgMode
  forceHero : Bool
deriving DecidableEq, Repr

/-- Modelled from the spec: a loosely-typed input record of the blueprint
(section 6 input contract: every field may be missing). -/
structure RawRecord where
  kind : Option RecordKind
  headline : Option String
  subtitle : Option String
  bodyBlocks : Option (List Block)
  background : Option BgMode
deriving DecidableEq, Repr

/-- Modelled from the spec: section 4.1, absent from src with the rest of the backend: normalize one record at its
position: missing kind defaults to content, position 0 is tagged
forceHero, a record with neither headline nor body blocks receives a
placeholder headline. -/
def normalizeRecord (i : Nat) (r : RawRecord) : SlideDescriptor :=
  let blocks := r.bodyBlocks.getD []
  let malformed := r.headline.isNone && blocks.isEmpty
  { index := i
    kind := r.kind.getD RecordKind.content
    headline := if malformed then some "Untitled slide" else r.headline
    subtitle := r.subtitle
    bodyBlocks := blocks
    background := r.background.getD BgMode.solid
    forceHero := i == 0 }

/-- Normalize a blueprint, numbering records from a start index. -/
def normalizeGo (i : Nat) : List RawRecord → List SlideDescriptor
  | [] => []
  | r :: rs => normalizeRecord i r :: normalizeGo (i + 1) rs

/-- Modelled from the spec: section 4.1, the Slide Descriptor Normalizer
(called normalizeDeck because Mathlib already declares normalize). -/
def normalizeDeck (rs : List RawRecord) : List SlideDescriptor :=
  normalizeGo 0 rs

/-- Modelled from the spec: section 3, isPlain is true iff the background
is solid and the body carries no block beyond the headline and subtitle
fields, i.e. bodyBlocks is empty. -/
def isPlainDesc (d : SlideDescriptor) : Bool :=
  d.background == BgMode.solid && d.bodyBlocks.isEmpty

/-- A text block whose value is short (the cards signal's short text). -/
def isShortText (b : Block) : Bool :=
  b.kind == BlockKind.text && b.value.length ≤ 80

/-- A block counting towards the cards signal: a stat or short text. -/
def isStatOrShort (b : Block) : Bool :=
  b.kind == BlockKind.stat || isShortText b

/-- The text is wrapped in quotation markers. -/
def quotedText (s : String) : Bool :=
  match s.data with
  | [] => false
  | c :: rest => c == '"' && rest.getLast? == some '"'

/-- The text carries an ordinal or date marker (it starts with a digit). -/
def dateMarked (s : String) : Bool :=
  match s.data with
  | [] => false
  | c :: _ => c.isDigit

/-- Two text lengths are roughly equal (within a factor of two). -/
def roughlyEqual (la lb : Nat) : Bool :=
  la ≤ 2 * lb && lb ≤ 2 * la

/-- Cards signal: at least two stat-or-short-text body blocks. -/
def cardsSignal (d : SlideDescriptor) : Bool :=
  2 ≤ (d.bodyBlocks.filter isStatOrShort).length

/-- Image-feature signal: exactly one image block paired with text. -/
def imageFeatureSignal (d : SlideDescriptor) : Bool :=
  (d.bodyBlocks.filter (fun b => b.kind == BlockKind.image)).length == 1 &&
  d.bodyBlocks.any (fun b => b.kind == BlockKind.text)

/-- Quote signal: the sole body block is text wrapped in quotation markers. -/
def quoteSignal (d : SlideDescriptor) : Bool :=
  match d.bodyBlocks with
  | [b] => b.kind == BlockKind.text && quotedText b.value
  | _ => false

/-- Timeline signal: the body blocks carry ordinal or date markers. -/
def timelineSignal (d : SlideDescriptor) : Bool :=
  !d.bodyBlocks.isEmpty && d.bodyBlocks.all (fun b => dateMarked b.value)

/-- Two-column signal: two roughly-equal-length text blocks. -/
def twoColumnSignal (d : SlideDescriptor) : Bool :=
  match d.bodyBlocks with
  | [a, b] => a.kind == BlockKind.text && b.kind == BlockKind.text &&
              roughlyEqual a.value.length b.value.length
  | _ => false

/-- Modelled from the spec: section 4.2, infer the family, testing the
signals in tie-break priority order
hero, imageFeature, cards, timeline, quoteBlock, twoColumn, plain;
the slide at index 0 or flagged forceHero is hero unconditionally. -/
def inferFamily (d : SlideDescriptor) : Family :=
  if d.forceHero || d.index == 0 then Family.hero
  else if imageFeatureSignal d then Family.imageFeature
  else if cardsSignal d then Family.cards
  else if timelineSignal d then Family.timeline
  else if quoteSignal d then Family.quoteBlock
  else if twoColumnSignal d then Family.twoColumn
  else Family.plain

/-- The content richness of a descriptor: total subtitle and body text
length (the keep-selection discriminator of section 4.3 step 3). -/
def richness (d : SlideDescriptor) : Nat :=
  (d.subtitle.getD "").length + (d.bodyBlocks.map (fun b => b.value.length)).sum

/-- A classification paired with its descriptor. -/
structure Classified where
  desc : SlideDescriptor
  isPlain : Bool
  family : Family
deriving DecidableEq, Repr

/-- Modelled from the spec: section 4.2, the Layout Classifier. -/
def classify (d : SlideDescriptor) : Classified :=
  { desc := d, isPlain := isPlainDesc d, family := inferFamily d }

/-- Classify every slide of a deck. -/
def classifyDeck (ds : List SlideDescriptor) : List Classified :=
  ds.map classify

/-- Not the hero family. -/
def notHero : Family → Bool
  | Family.hero => false
  | _ => true

/-- A slide the Variety Enforcer targets: flagged isPlain and not hero
(the spec example exempts the forced hero from the plain count). -/
def flaggedPlain (c : Classified) : Bool :=
  c.isPlain && notHero c.family

/-- Modelled from the spec: section 4.3 step 3, the kept plain slide is
the flagged slide of greatest richness, ties resolved to the lowest index
(strict improvement required, so the first maximum wins). -/
def keptIndexGo (i : Nat) (best : Option (Nat × Nat)) : List Classified → Nat
  | [] => (best.map (fun b => b.1)).getD 0
  | c :: rest =>
    if flaggedPlain c then
      match best with
      | none => keptIndexGo (i + 1) (some (i, richness c.desc)) rest
      | some (j, r) =>
        if richness c.desc > r then keptIndexGo (i + 1) (some (i, richness c.desc)) rest
        else keptIndexGo (i + 1) (some (j, r)) rest
    else keptIndexGo (i + 1) best rest

/-- The index of the plain slide the enforcer keeps. -/
def keptIndex (l : List Classified) : Nat :=
  keptIndexGo 0 none l

/-- The round-robin replacement families of section 4.3 step 4. -/
def candidates : List Family :=
  [Family.twoColumn, Family.cards, Family.timeline, Family.quoteBlock, Family.imageFeature]

/-- Modelled from the spec: section 4.3 step 4, starting at round-robin
slot p, take the first candidate family not used by the neighbouring
slides; if every candidate is adjacency-blocked fall back to the slot
reached, never looping.  Returns the chosen slot and family. -/
def pickFrom : Nat → Nat → Option Family → Option Family → Nat × Family
  | 0, p, _, _ => (p, candidates.getD (p % 5) Family.twoColumn)
  | Nat.succ fuel, p, prev, next =>
    let f := candidates.getD (p % 5) Family.twoColumn
    if prev == some f || next == some f then pickFrom fuel (p + 1) prev next
    else (p, f)

/-- Modelled from the spec: section 4.3 steps 4 and 5, walk the deck in
order; every flagged plain slide other than the kept one is reassigned
the next round-robin family that no adjacent slide uses, and its isPlain
flag is cleared, since the synthesized layout content of step 5 gives it
structural body blocks.  The previous neighbour is the already-produced
slide, the next neighbour is the not-yet-processed input slide. -/
def goEnforce (kept : Nat) : Nat → Nat → Option Family → List Classified → List Classified
  | _, _, _, [] => []
  | i, p, prev, c :: rest =>
    if flaggedPlain c && (i != kept) then
      let next := rest.head?.map (fun c2 => c2.family)
      let pick := pickFrom 5 p prev next
      let c2 : Classified := { c with family := pick.2, isPlain := false }
      c2 :: goEnforce kept (i + 1) (pick.1 + 1) (some pick.2) rest
    else
      c :: goEnforce kept (i + 1) p (some c.family) rest

/-- Modelled from the spec: section 4.3, the Variety Enforcement Engine.
If at most one slide is flagged plain the input is returned unchanged;
otherwise every flagged plain slide except the kept one is redesigned. -/
def enforce (l : List Classified) : List Classified :=
  if l.countP flaggedPlain ≤ 1 then l
  else goEnforce (keptIndex l) 0 0 none l

/-- The classification pipeline: normalize, classify, enforce variety. -/
def pipeline (rs : List RawRecord) : List Classified :=
  enforce (classifyDeck (normalizeDeck rs))

/-! ### Fit validation, modelled from the spec (section 4.5)

The spec leaves the text-measurement model open (section 9) but requires
a deterministic, monotone length-based estimator: the model charges one
height unit per character at scale one.  The shrink loop multiplies the
scale by 0.95 down to the 0.6 floor; ten decrements reach the floor, so
at most eleven scales are ever tried. -/

/-- The slide height bound of the estimator, in height units. -/
def slideHeightBound : Nat := 100

/-- A font scale, an exact rational num / den kept as an integer pair so
every comparison is integer cross-multiplication. -/
structure Scale where
  num : Nat
  den : Nat
deriving DecidableEq, Repr

/-- The font-scale floor, 0.6. -/
def floorScale : Scale :=
  { num := 3, den := 5 }

/-- One fixed shrink decrement: multiply the scale by 0.95. -/
def shrinkStep (sc : Scale) : Scale :=
  { num := sc.num * 19, den := sc.den * 20 }

/-- The scales the shrink loop tries, largest first: n successive
decrements starting from the given scale, then the floor itself. -/
def shrinkScalesGo : Nat → Scale → List Scale
  | 0, _ => [floorScale]
  | Nat.succ n, sc => sc :: shrinkScalesGo n (shrinkStep sc)

/-- The scales the shrink loop tries, largest first: the ten decrements
that stay above the floor (the tenth power of 0.95 already falls below
0.6), then the floor itself; eleven scales in all. -/
def shrinkScales : List Scale :=
  shrinkScalesGo 10 { num := 1, den := 1 }

/-- A positioned content region, in fractional slide coordinates. -/
structure Box where
  x : ℚ
  y : ℚ
  w : ℚ
  h : ℚ
deriving DecidableEq, Repr

/-- Modelled from the spec: a resolved slide as the Fit Validator sees
it: its family, the text lengths of its stacked blocks, and its
positioned regions. -/
structure ResolvedSlide where
  family : Family
  headlineLen : Nat
  subtitleLen : Nat
  bodyLens : List Nat
  boxes : List Box
deriving DecidableEq, Repr

/-- Total content length of the stacked blocks. -/
def contentLength (hl sl : Nat) (body : List Nat) : Nat :=
  hl + sl + body.sum

/-- The monotone size estimate fits the slide at the given scale:
scale * contentLength ≤ slideHeightBound, written with integer
cross-multiplication. -/
def fitsAt (sc : Scale) (hl sl : Nat) (body : List Nat) : Bool :=
  sc.num * contentLength hl sl body ≤ slideHeightBound * sc.den

/-- The shrink loop: try the scales in order, counting iterations, and
return the first fitting scale with its iteration count. -/
def shrinkSearchGo (hl sl : Nat) (body : List Nat) : Nat → List Scale → Option (Nat × Scale)
  | _, [] => none
  | n, sc :: rest =>
    if fitsAt sc hl sl body then some (n + 1, sc)
    else shrinkSearchGo hl sl body (n + 1) rest

/-- The truncation loop at the floor scale: drop the last body block
(the lowest-priority one) while the slide still overflows; the fuel is
the body length, enough to drop every block. -/
def truncLoop (hl sl : Nat) : Nat → List Nat → List Nat
  | 0, body => body
  | Nat.succ fuel, body =>
    if fitsAt floorScale hl sl body then body
    else truncLoop hl sl fuel body.dropLast

/-- Two boxes intersect (beyond a zero epsilon). -/
def boxesOverlap (a b : Box) : Bool :=
  a.x < b.x + b.w && b.x < a.x + a.w && a.y < b.y + b.h && b.y < a.y + a.h

/-- The bounded number of nudge attempts per box. -/
def maxNudgeAttempts : Nat := 8

/-- The nudge distance along the layout axis. -/
def nudgeStep : ℚ := 1 / 20

/-- Nudge one box along its axis until it is clear of the already-placed
boxes or the attempts run out; returns the box and the attempts used. -/
def nudgeOne (placed : List Box) : Box → Nat → Box × Nat
  | b, 0 => (b, 0)
  | b, Nat.succ fuel =>
    if placed.any (fun b2 => boxesOverlap b2 b) then
      let r := nudgeOne placed { b with x := b.x + nudgeStep } fuel
      (r.1, r.2 + 1)
    else (b, 0)

/-- Place the boxes in declaration order, nudging each against the ones
already placed, accumulating the attempts used. -/
def resolveGo : List Box → Nat → List Box → List Box × Nat
  | placed, acc, [] => (placed.reverse, acc)
  | placed, acc, b :: rest =>
    let r := nudgeOne placed b maxNudgeAttempts
    resolveGo (r.1 :: placed) (acc + r.2) rest

/-- A family with explicit positioned regions, subject to overlap
detection. -/
def positionedFamily : Family → Bool
  | Family.cards => true
  | Family.twoColumn => true
  | Family.imageFeature => true
  | _ => false

/-- Index pairs of boxes in the list that still intersect, the second
index scanning the tail after the first. -/
def overlapsWith (i : Nat) (b : Box) : Nat → List Box → List (Nat × Nat)
  | _, [] => []
  | j, b2 :: rest =>
    (if boxesOverlap b b2 then [(i, j)] else []) ++ overlapsWith i b (j + 1) rest

/-- All intersecting index pairs of a box list. -/
def overlapPairsGo (i : Nat) : List Box → List (Nat × Nat)
  | [] => []
  | b :: rest => overlapsWith i b (i + 1) rest ++ overlapPairsGo (i + 1) rest

/-- The unresolved overlapping pairs of a placed box list. -/
def overlapPairs (bs : List Box) : List (Nat × Nat) :=
  overlapPairsGo 0 bs

/-- The FitReport of section 3, extended with the iteration counts the
bounded-fit property speaks about. -/
structure FitReport where
  overflowing : Bool
  appliedScale : Scale
  shrinkIters : Nat
  truncatedCount : Nat
  nudgeAttempts : Nat
  overlappingPairs : List (Nat × Nat)
deriving DecidableEq, Repr

/-- Modelled from the spec: section 4.5, the Fit Validator.  Shrink
until the content fits or the floor is reached; at the floor truncate
body blocks from the end; report overflowing only if it still cannot
fit.  Families with positioned regions get bounded overlap nudging. -/
def fitValidate (s : ResolvedSlide) : FitReport :=
  let nudged :=
    if positionedFamily s.family then resolveGo [] 0 s.boxes else (s.boxes, 0)
  match shrinkSearchGo s.headlineLen s.subtitleLen s.bodyLens 0 shrinkScales with
  | some r =>
    { overflowing := false, appliedScale := r.2, shrinkIters := r.1
      truncatedCount := 0, nudgeAttempts := nudged.2
      overlappingPairs := overlapPairs nudged.1 }
  | none =>
    let body2 := truncLoop s.headlineLen s.subtitleLen s.bodyLens.length s.bodyLens
    { overflowing := !fitsAt floorScale s.headlineLen s.subtitleLen body2
      appliedScale := floorScale
      shrinkIters := shrinkScales.length
      truncatedCount := s.bodyLens.length - body2.length
      nudgeAttempts := nudged.2
      overlappingPairs := overlapPairs nudged.1 }

/-! ### Sample values used by concrete witnesses and counterexamples -/

/-- A theme carrying every sub-object the style table reads, so that
style generation succeeds on it. -/
def patternedTheme : Theme :=
  { modern_gradient with
    patterns := some { dots := some "radial-gradient(#8b5cf6 1px, transparent 1px)" } }

/-- A slide record without a type field. -/
def sampleSlide : Slide :=
  { type := none, title := some "Intro", content := some "Welcome"
    extra := [("notes", "n1")], styles := none, transition := none }

/-- A sample presentation. -/
def samplePresentation : Presentation :=
  { title := some "Quarterly review", extra := [("id", "p1")]
    slides := [sampleSlide], theme := none, styles := none }

/-- The slide obtained by theming the sample slide (extracted from the
successful application). -/
def themedSampleSlide : Slide :=
  ((applyThemeToSlide sampleSlide patternedTheme).toOption).getD sampleSlide

/-- The presentation obtained by theming the sample presentation. -/
def themedSamplePresentation : Presentation :=
  ((applyThemeToPresentation samplePresentation patternedTheme).toOption).getD
    samplePresentation

/-- The initial ThemeProvider state. -/
def sampleState : ThemeState :=
  { currentTheme := "corporate_blue", customTheme := none }

/-- The invariant the provider state maintains: without a custom theme
the selected key has a truthy property access (a registered entry or an
inherited prototype member). -/
def themeStateInv (st : ThemeState) : Prop :=
  st.customTheme = none → (registryAccess st.currentTheme).isSome = true

/-- A default classification, used with List.getD. -/
def dummyClassified : Classified :=
  { desc := { index := 0, kind := RecordKind.content, headline := none
              subtitle := none, bodyBlocks := [], background := BgMode.solid
              forceHero := false }
    isPlain := false, family := Family.plain }

/-- A raw title record for position 0. -/
def heroRaw : RawRecord :=
  { kind := some RecordKind.title, headline := some "The deck"
    subtitle := some "An overview", bodyBlocks := none, background := none }

/-- A plain raw record: solid background, headline only. -/
def plainRaw : RawRecord :=
  { kind := none, headline := some "Point", subtitle := none
    bodyBlocks := none, background := none }

/-- A plain raw record with a subtitle, richer than plainRaw. -/
def richPlainRaw : RawRecord :=
  { kind := none, headline := some "Point", subtitle := some "a subtitle"
    bodyBlocks := none, background := none }

/-- A record with a gradient background and no body blocks: it is not
flagged isPlain (the background is not solid) yet no family signal
matches, so it classifies to the plain family. -/
def gradientEmptyRaw : RawRecord :=
  { kind := none, headline := some "Outlook", subtitle := none
    bodyBlocks := none, background := some BgMode.gradient }

/-- A blueprint with three flagged plain slides after the hero. -/
def sampleBlueprint : List RawRecord :=
  [heroRaw, plainRaw, richPlainRaw, plainRaw]

/-- The classified sample deck before enforcement. -/
def sampleClassified : List Classified :=
  classifyDeck (normalizeDeck sampleBlueprint)

/-- A blueprint whose two trailing slides classify to the plain family
without being flagged isPlain. -/
def cexBlueprint : List RawRecord :=
  [heroRaw, gradientEmptyRaw, gradientEmptyRaw]

/-- A resolved slide with a huge headline and no body blocks: it cannot
fit even at the floor scale. -/
def overflowSlide : ResolvedSlide :=
  { family := Family.cards, headlineLen := 1000, subtitleLen := 0
    bodyLens := [], boxes := [] }

/-! ## Theorems -/

/-! ### Path lookup (claim C10) -/

theorem jsLookupSafe_undefined (ps : List String) :
    jsLookupSafe JsValue.undefined ps = JsValue.undefined := by
  cases ps <;> rfl

theorem nullFree_fieldLookup (fs : List (String × JsValue)) (k : String)
    (h : nullFreeFields fs = true) :
    nullFree ((fieldLookup fs k).getD JsValue.undefined) = true := by
  induction fs with
  | nil => rfl
  | cons kv rest ih =>
    obtain ⟨k0, v⟩ := kv
    simp only [nullFreeFields, Bool.and_eq_true] at h
    by_cases hk : k0 = k
    · simp [fieldLookup, hk, h.1]
    · simp only [fieldLookup, hk, if_false, ite_false]
      exact ih h.2

theorem getThemeValueGo_nullFree (ps : List String) : ∀ (v : JsValue),
    nullFree v = true →
    getThemeValueGo v ps = Except.ok (jsLookupSafe v ps) := by
  induction ps with
  | nil => intro v _; cases v <;> rfl
  | cons p ps ih =>
    intro v hv
    cases v with
    | undefined => rfl
    | null => simp [nullFree] at hv
    | str s =>
      have h2 := ih JsValue.undefined rfl
      rw [jsLookupSafe_undefined] at h2
      exact h2
    | num n =>
      have h2 := ih JsValue.undefined rfl
      rw [jsLookupSafe_undefined] at h2
      exact h2
    | obj fs =>
      have hv2 : nullFreeFields fs = true := by simpa [nullFree] using hv
      exact ih _ (nullFree_fieldLookup fs p hv2)

/-- Claim C10, corrected: getThemeValue never throws and follows the path
provided no null value is traversed; the loop guards only against
undefined, so this is the exact totality condition. -/
theorem getThemeValue_total_of_nullFree (theme : JsValue) (path : String)
    (h : nullFree theme = true) :
    getThemeValue theme path = Except.ok (jsLookupSafe theme (splitDot path)) :=
  getThemeValueGo_nullFree (splitDot path) theme h

/-- Witness for C10: a null-free theme object evaluated at a two-segment
path. -/
theorem getThemeValue_total_witness :
    nullFree (JsValue.obj [("colors", JsValue.obj [("primary", JsValue.str "#1a73e8")])]) = true ∧
    getThemeValue (JsValue.obj [("colors", JsValue.obj [("primary", JsValue.str "#1a73e8")])])
      "colors.primary"
      = Except.ok (jsLookupSafe
          (JsValue.obj [("colors", JsValue.obj [("primary", JsValue.str "#1a73e8")])])
          (splitDot "colors.primary")) :=
  ⟨rfl, getThemeValue_total_of_nullFree _ "colors.primary" rfl⟩

/-- Counterexample for C10 as stated: on a theme whose property a is
null, the path a.b throws a TypeError, because only undefined stops the
loop. -/
theorem getThemeValue_null_throws :
    getThemeValue (JsValue.obj [("a", JsValue.null)]) "a.b"
      = Except.error (JsError.typeError "b") := rfl

/-! ### Style resolution totality (claim C2) -/

/-- Counterexample for C2 as stated: resolving the title family against
the registered corporate_blue theme throws a TypeError, reading primary
of the missing gradients object. -/
theorem generateSlideStyles_corporate_blue_throws :
    generateSlideStyles corporate_blue (some "title")
      = Except.error (JsError.typeError "primary") := rfl

/-- Claim C2, corrected: for every registered theme and every slide type
the style resolution throws while building the eager slideTypes table:
three themes lack the gradients object and every registered theme lacks
the patterns object, so resolution never succeeds on a registered theme. -/
theorem generateSlideStyles_registered_always_throws (ty : Option String) :
    generateSlideStyles corporate_blue ty = Except.error (JsError.typeError "primary") ∧
    generateSlideStyles elegant_dark ty = Except.error (JsError.typeError "primary") ∧
    generateSlideStyles nature_green ty = Except.error (JsError.typeError "primary") ∧
    generateSlideStyles modern_gradient ty = Except.error (JsError.typeError "dots") :=
  ⟨rfl, rfl, rfl, rfl⟩

/-! ### Registry load validation (claim C3) -/

/-- Counterexample for C3 as stated: a theme entry missing every required
color and font role is accepted by setTheme with no configuration error,
becomes the active theme, and the missing role only surfaces later as a
TypeError at style-resolution time. -/
theorem missing_roles_theme_accepted :
    (setTheme sampleState (some emptyThemeObj)).customTheme = some emptyThemeObj ∧
    activeTheme (setTheme sampleState (some emptyThemeObj))
      = ThemeValue.themeObj emptyThemeObj ∧
    fullyPopulated emptyThemeObj = false ∧
    generateSlideStyles emptyThemeObj none = Except.error (JsError.typeError "background") :=
  ⟨rfl, rfl, rfl, rfl⟩

/-- Claim C3, corrected: the provider performs no load-time validation at
all: setTheme accepts any object whatever roles it misses, and that
object immediately becomes the active theme reaching resolution. -/
theorem setTheme_never_rejects (st : ThemeState) (c : Theme) :
    (setTheme st (some c)).customTheme = some c ∧
    activeTheme (setTheme st (some c)) = ThemeValue.themeObj c :=
  ⟨rfl, rfl⟩

/-! ### Missing slide type (claim C6) -/

/-- Counterexample for C6 as stated: theming a slide without a type field
succeeds but assigns no type: the result still has no type field, rather
than the kind content. -/
theorem untyped_slide_not_assigned_content :
    applyThemeToSlide sampleSlide patternedTheme = Except.ok themedSampleSlide ∧
    themedSampleSlide.type = none ∧
    themedSampleSlide.type ≠ some "content" :=
  ⟨rfl, rfl, by decide⟩

/-- Claim C6, corrected: a slide with no type keeps none; style
generation replaces the missing argument by the string default, which
misses every key of the style table, so resolution falls back to the
content-family specification. -/
theorem untyped_slide_resolves_content (t : Theme) (s s2 : Slide)
    (h : s.type = none) (h2 : applyThemeToSlide s t = Except.ok s2) :
    s2.type = none ∧
    s2.styles = (generateSlideStyles t (some "content")).toOption ∧
    generateSlideStyles t s.type = generateSlideStyles t (some "content") := by
  have hsel : generateSlideStyles t s.type = generateSlideStyles t (some "content") := by
    rw [h]; rfl
  cases hg : generateSlideStyles t s.type with
  | error e => simp [applyThemeToSlide, hg] at h2
  | ok st2 =>
    simp only [applyThemeToSlide, hg, Except.ok.injEq] at h2
    subst h2
    refine ⟨h, ?_, ?_⟩
    · rw [← hsel, hg]
      rfl
    · rw [← hsel, hg]

/-- Witness for C6: the sample slide has no type and resolves to the
content-family styles. -/
theorem untyped_slide_resolves_content_witness :
    themedSampleSlide.type = none ∧
    themedSampleSlide.styles = (generateSlideStyles patternedTheme (some "content")).toOption ∧
    generateSlideStyles patternedTheme sampleSlide.type
      = generateSlideStyles patternedTheme (some "content") :=
  untyped_slide_resolves_content patternedTheme sampleSlide themedSampleSlide rfl rfl

/-! ### Frame of theme application (claim C8) -/

theorem mapSlides_length (t : Theme) : ∀ (l l2 : List Slide),
    mapSlides t l = Except.ok l2 → l2.length = l.length := by
  intro l
  induction l with
  | nil => intro l2 h; simp [mapSlides] at h; simp [← h]
  | cons s rest ih =>
    intro l2 h
    cases ha : applyThemeToSlide s t with
    | error e => simp [mapSlides, ha] at h
    | ok s2 =>
      cases hr : mapSlides t rest with
      | error e => simp [mapSlides, ha, hr] at h
      | ok rest2 =>
        simp [mapSlides, ha, hr] at h
        rw [← h]
        simp [ih rest2 hr]

/-- Counterexample for C8 as stated: with the registered corporate_blue
theme applyThemeToSlide does not return a themed slide at all: it throws
while generating the styles. -/
theorem applyTheme_throws_on_registered :
    applyThemeToSlide sampleSlide corporate_blue
      = Except.error (JsError.typeError "primary") := rfl

/-- Claim C8, corrected: whenever theme application returns, it returns
new values that preserve every slide field except styles and transition,
and every presentation field except slides, theme and styles (nothing is
mutated: both functions build fresh records). -/
theorem applyTheme_preserves_fields (t : Theme) (s s2 : Slide) (p p2 : Presentation)
    (hs : applyThemeToSlide s t = Except.ok s2)
    (hp : applyThemeToPresentation p t = Except.ok p2) :
    (s2.type = s.type ∧ s2.title = s.title ∧ s2.content = s.content ∧ s2.extra = s.extra) ∧
    (p2.title = p.title ∧ p2.extra = p.extra ∧ p2.theme = t.name ∧
     p2.slides.length = p.slides.length) := by
  constructor
  · cases hg : generateSlideStyles t s.type with
    | error e => simp [applyThemeToSlide, hg] at hs
    | ok st2 =>
      simp [applyThemeToSlide, hg] at hs
      rw [← hs]
      exact ⟨rfl, rfl, rfl, rfl⟩
  · cases hm : mapSlides t p.slides with
    | error e => simp [applyThemeToPresentation, hm] at hp
    | ok slides2 =>
      cases hc : t.colors with
      | none => simp [applyThemeToPresentation, hm, readSub, hc] at hp
      | some cs =>
        cases hf : t.fonts with
        | none => simp [applyThemeToPresentation, hm, readSub, hc, hf] at hp
        | some fs =>
          simp [applyThemeToPresentation, hm, readSub, hc, hf] at hp
          rw [← hp]
          exact ⟨rfl, rfl, rfl, mapSlides_length t p.slides slides2 hm⟩

/-- Witness for C8: the patterned theme applies successfully to the
sample slide and presentation, preserving their fields. -/
theorem applyTheme_preserves_fields_witness :
    (themedSampleSlide.type = sampleSlide.type ∧
     themedSampleSlide.title = sampleSlide.title ∧
     themedSampleSlide.content = sampleSlide.content ∧
     themedSampleSlide.extra = sampleSlide.extra) ∧
    (themedSamplePresentation.title = samplePresentation.title ∧
     themedSamplePresentation.extra = samplePresentation.extra ∧
     themedSamplePresentation.theme = patternedTheme.name ∧
     themedSamplePresentation.slides.length = samplePresentation.slides.length) :=
  applyTheme_preserves_fields patternedTheme sampleSlide themedSampleSlide
    samplePresentation themedSamplePresentation rfl rfl

/-! ### Provider state invariants (claim C9) -/

theorem registryLookup_registered (nm : String) (t : Theme)
    (h : registryLookup nm = some t) : registeredTheme t := by
  unfold registryLookup at h
  split_ifs at h
  · exact Or.inl (Option.some.inj h).symm
  · exact Or.inr (Or.inl (Option.some.inj h).symm)
  · exact Or.inr (Or.inr (Or.inl (Option.some.inj h).symm))
  · exact Or.inr (Or.inr (Or.inr (Option.some.inj h).symm))

theorem registryAccess_themeObj_lookup (nm : String) (t : Theme)
    (h : registryAccess nm = some (ThemeValue.themeObj t)) :
    registryLookup nm = some t := by
  unfold registryAccess at h
  cases hl : registryLookup nm with
  | some t2 =>
    rw [hl] at h
    exact congrArg some (ThemeValue.themeObj.inj (Option.some.inj h))
  | none =>
    rw [hl] at h
    split_ifs at h
    simp_all

theorem activeTheme_cases (st : ThemeState) :
    (∃ c, st.customTheme = some c ∧ activeTheme st = ThemeValue.themeObj c) ∨
    (∃ t, registeredTheme t ∧ activeTheme st = ThemeValue.themeObj t) ∨
    (∃ nm, activeTheme st = ThemeValue.protoFn nm) := by
  cases hcu : st.customTheme with
  | some c =>
    exact Or.inl ⟨c, rfl, by simp [activeTheme, hcu]⟩
  | none =>
    cases ha : registryAccess st.currentTheme with
    | none =>
      exact Or.inr (Or.inl ⟨corporate_blue, Or.inl rfl, by simp [activeTheme, hcu, ha]⟩)
    | some v =>
      cases v with
      | themeObj t =>
        exact Or.inr (Or.inl ⟨t,
          registryLookup_registered _ t (registryAccess_themeObj_lookup _ t ha),
          by simp [activeTheme, hcu, ha]⟩)
      | protoFn nm =>
        exact Or.inr (Or.inr ⟨nm, by simp [activeTheme, hcu, ha]⟩)

/-- Counterexample for C9 as stated: toString names no entry of the
registered theme table, yet switchTheme with it changes the selection,
because the guard is a truthiness test of the property access and
defaultThemes inherits Object.prototype.toString; the active theme then
is the inherited function, neither a registered entry nor a supplied
custom object. -/
theorem switchTheme_proto_key_changes_state :
    registryLookup "toString" = none ∧
    switchTheme sampleState "toString"
      = { currentTheme := "toString", customTheme := none } ∧
    switchTheme sampleState "toString" ≠ sampleState ∧
    activeTheme (switchTheme sampleState "toString")
      = ThemeValue.protoFn "toString" :=
  ⟨rfl, rfl, by decide, rfl⟩

/-- Claim C9, corrected: switchTheme changes the selection exactly when
the property access defaultThemes[themeId] is truthy: for the four
registered keys (whose entries are registered and fully populated) and
also for inherited Object.prototype member names; identifiers that are
neither leave the state unchanged.  The active theme is accordingly the
supplied custom object, a registered entry, or an inherited prototype
member; every operation preserves the invariant that without a custom
theme the selected key has a truthy access, under which the use-theme.js
active theme is defined and falls in the same three cases; the
PresentationThemeProvider guard behaves the same way. -/
theorem switchTheme_truthiness_guard (st : ThemeState) (themeId : String) :
    (registryAccess themeId = none → switchTheme st themeId = st) ∧
    (∀ v, registryAccess themeId = some v →
      switchTheme st themeId = { currentTheme := themeId, customTheme := none }) ∧
    (∀ t, registryLookup themeId = some t →
      registryAccess themeId = some (ThemeValue.themeObj t) ∧
      registeredTheme t ∧ fullyPopulated t = true) ∧
    (registryLookup themeId = none → protoMember themeId = false →
      registryAccess themeId = none) ∧
    ((∃ c, st.customTheme = some c ∧ activeTheme st = ThemeValue.themeObj c) ∨
     (∃ t, registeredTheme t ∧ activeTheme st = ThemeValue.themeObj t) ∨
     (∃ nm, activeTheme st = ThemeValue.protoFn nm)) ∧
    (themeStateInv st → themeStateInv (switchTheme st themeId)) ∧
    (∀ c, themeStateInv st → themeStateInv (setTheme st c)) ∧
    (∀ u, themeStateInv st → themeStateInv (updateCustomTheme st u)) ∧
    (themeStateInv st → ∃ v, hookTheme st = some v ∧
      ((∃ c, st.customTheme = some c ∧ v = ThemeValue.themeObj c) ∨
       (∃ t, registeredTheme t ∧ v = ThemeValue.themeObj t) ∨
       (∃ nm, v = ThemeValue.protoFn nm))) ∧
    (∀ cur nm, presThemeAccess nm = none → presSetTheme cur nm = cur) := by
  refine ⟨?_, ?_, ?_, ?_, activeTheme_cases st, ?_, ?_, ?_, ?_, ?_⟩
  · intro h
    simp [switchTheme, h]
  · intro v hv
    simp [switchTheme, hv]
  · intro t ht
    have hr := registryLookup_registered _ t ht
    refine ⟨by simp [registryAccess, ht], hr, ?_⟩
    rcases hr with h | h | h | h <;> subst h <;> rfl
  · intro h1 h2
    simp [registryAccess, h1, h2]
  · intro hInv
    cases ha : registryAccess themeId with
    | none => simpa [switchTheme, ha] using hInv
    | some v => simp [switchTheme, ha, themeStateInv]
  · intro c hInv
    cases c with
    | none => exact hInv
    | some c0 => simp [setTheme, themeStateInv]
  · intro u hInv
    simp [updateCustomTheme, themeStateInv]
  · intro hInv
    cases hcu : st.customTheme with
    | some c =>
      exact ⟨ThemeValue.themeObj c, by simp [hookTheme, hcu], Or.inl ⟨c, rfl, rfl⟩⟩
    | none =>
      have hs := hInv hcu
      cases ha : registryAccess st.currentTheme with
      | none => rw [ha] at hs; cases hs
      | some v =>
        cases v with
        | themeObj t =>
          exact ⟨ThemeValue.themeObj t, by simp [hookTheme, hcu, ha],
            Or.inr (Or.inl ⟨t,
              registryLookup_registered _ t (registryAccess_themeObj_lookup _ t ha),
              rfl⟩)⟩
        | protoFn nm =>
          exact ⟨ThemeValue.protoFn nm, by simp [hookTheme, hcu, ha],
            Or.inr (Or.inr ⟨nm, rfl⟩)⟩
  · intro cur nm h
    simp [presSetTheme, h]

/-- Witness for C9: the guard at an identifier that is neither a key nor
a prototype member, at a registered key, and at the inherited toString
key, with invariant preservation from the initial state. -/
theorem switchTheme_truthiness_guard_witness :
    switchTheme sampleState "mystery" = sampleState ∧
    switchTheme sampleState "elegant_dark"
      = { currentTheme := "elegant_dark", customTheme := none } ∧
    switchTheme sampleState "toString"
      = { currentTheme := "toString", customTheme := none } ∧
    themeStateInv (switchTheme sampleState "toString") ∧
    (registryAccess "elegant_dark" = some (ThemeValue.themeObj elegant_dark) ∧
     registeredTheme elegant_dark ∧ fullyPopulated elegant_dark = true) :=
  ⟨(switchTheme_truthiness_guard sampleState "mystery").1 rfl,
   (switchTheme_truthiness_guard sampleState "elegant_dark").2.1
     (ThemeValue.themeObj elegant_dark) rfl,
   (switchTheme_truthiness_guard sampleState "toString").2.1
     (ThemeValue.protoFn "toString") rfl,
   (switchTheme_truthiness_guard sampleState "toString").2.2.2.2.2.1 (fun _ => rfl),
   (switchTheme_truthiness_guard sampleState "elegant_dark").2.2.1 elegant_dark rfl⟩

/-! ### Variety enforcement (claims C1, C7, C4) -/

theorem goEnforce_countP_eq_zero (kept : Nat) :
    ∀ (l : List Classified) (i p : Nat) (prev : Option Family), kept < i →
    (goEnforce kept i p prev l).countP flaggedPlain = 0 := by
  intro l
  induction l with
  | nil => intro i p prev _; rfl
  | cons c rest ih =>
    intro i p prev h
    by_cases hc : (flaggedPlain c && (i != kept)) = true
    · simp only [goEnforce]
      rw [if_pos hc]
      simp only [List.countP_cons, flaggedPlain, Bool.false_and]
      simp only [Bool.false_eq_true, if_false, Nat.add_zero]
      exact ih _ _ _ (Nat.lt_succ_of_lt h)
    · simp only [goEnforce]
      rw [if_neg hc]
      have hne : (i != kept) = true := by
        simp only [bne_iff_ne]
        omega
      have hcf : flaggedPlain c = false := by
        cases hcc : flaggedPlain c with
        | false => rfl
        | true => exact absurd (by rw [hcc, hne]; rfl) hc
      simp only [List.countP_cons, hcf, Bool.false_eq_true, if_false, Nat.add_zero]
      exact ih _ _ _ (Nat.lt_succ_of_lt h)

theorem goEnforce_countP_le_one (kept : Nat) :
    ∀ (l : List Classified) (i p : Nat) (prev : Option Family),
    (goEnforce kept i p prev l).countP flaggedPlain ≤ 1 := by
  intro l
  induction l with
  | nil => intro i p prev; simp [goEnforce]
  | cons c rest ih =>
    intro i p prev
    by_cases hc : (flaggedPlain c && (i != kept)) = true
    · simp only [goEnforce]
      rw [if_pos hc]
      simp only [List.countP_cons, flaggedPlain, Bool.false_and]
      simp only [Bool.false_eq_true, if_false, Nat.add_zero]
      exact ih _ _ _
    · simp only [goEnforce]
      rw [if_neg hc]
      cases hcf : flaggedPlain c with
      | false =>
        simp only [List.countP_cons, hcf, Bool.false_eq_true, if_false, Nat.add_zero]
        exact ih _ _ _
      | true =>
        have hik : i = kept := by
          by_contra hik
          have hne : (i != kept) = true := by
            simp only [bne_iff_ne]
            exact hik
          exact hc (by rw [hcf, hne]; rfl)
        subst hik
        have hz := goEnforce_countP_eq_zero i rest (i + 1) p (some c.family)
          (Nat.lt_succ_self i)
        simp [List.countP_cons, hcf, hz]

theorem candidates_getD_ne_plain (n : Nat) :
    candidates.getD (n % 5) Family.twoColumn ≠ Family.plain := by
  have h5 : n % 5 = 0 ∨ n % 5 = 1 ∨ n % 5 = 2 ∨ n % 5 = 3 ∨ n % 5 = 4 := by omega
  rcases h5 with h | h | h | h | h <;> rw [h] <;> decide

theorem pickFrom_ne_plain : ∀ (fuel p : Nat) (prev next : Option Family),
    (pickFrom fuel p prev next).2 ≠ Family.plain := by
  intro fuel
  induction fuel with
  | zero => intro p prev next; exact candidates_getD_ne_plain p
  | succ fuel ih =>
    intro p prev next
    simp only [pickFrom]
    cases hb : (prev == some (candidates.getD (p % 5) Family.twoColumn) ||
        next == some (candidates.getD (p % 5) Family.twoColumn)) with
    | true =>
      rw [if_pos rfl]
      exact ih (p + 1) prev next
    | false =>
      rw [if_neg (by simp)]
      exact candidates_getD_ne_plain p

theorem goEnforce_getD (kept : Nat) :
    ∀ (l : List Classified) (i p : Nat) (prev : Option Family) (j : Nat),
    j < l.length →
    flaggedPlain (l.getD j dummyClassified) = true →
    i + j ≠ kept →
    ((goEnforce kept i p prev l).getD j dummyClassified).family ≠ Family.plain ∧
    ((goEnforce kept i p prev l).getD j dummyClassified).isPlain = false := by
  intro l
  induction l with
  | nil => intro i p prev j hj; simp at hj
  | cons c rest ih =>
    intro i p prev j hj hflag hne
    cases j with
    | zero =>
      have hflag0 : flaggedPlain c = true := by simpa using hflag
      have hi : (i != kept) = true := by
        simp only [bne_iff_ne]
        omega
      have hcond : (flaggedPlain c && (i != kept)) = true := by rw [hflag0, hi]; rfl
      simp only [goEnforce]
      rw [if_pos hcond]
      exact ⟨by simpa using pickFrom_ne_plain 5 p prev (rest.head?.map (fun c2 => c2.family)),
        by simp⟩
    | succ j2 =>
      have hj2 : j2 < rest.length := by simpa using hj
      have hflag2 : flaggedPlain (rest.getD j2 dummyClassified) = true := by
        simpa using hflag
      have hne2 : (i + 1) + j2 ≠ kept := by omega
      by_cases hc : (flaggedPlain c && (i != kept)) = true
      · simp only [goEnforce]
        rw [if_pos hc]
        simpa using ih (i + 1) _ _ j2 hj2 hflag2 hne2
      · simp only [goEnforce]
        rw [if_neg hc]
        simpa using ih (i + 1) p (some c.family) j2 hj2 hflag2 hne2

theorem enforce_noop_of_le (l : List Classified) (h : l.countP flaggedPlain ≤ 1) :
    enforce l = l := by
  simp only [enforce]
  rw [if_pos h]

theorem enforce_countP_le (l : List Classified) :
    (enforce l).countP flaggedPlain ≤ 1 := by
  by_cases h : l.countP flaggedPlain ≤ 1
  · rw [enforce_noop_of_le l h]; exact h
  · simp only [enforce]
    rw [if_neg h]
    exact goEnforce_countP_le_one _ l 0 0 none

/-- Claim C1, corrected: after Variety Enforcement at most one slide
flagged isPlain (and not hero) remains, and every flagged slide other
than the kept one carries a non-plain family with its flag cleared.  The
whole-deck count of the plain family can still exceed one, because a
slide can classify to the plain family without being flagged isPlain
(see the counterexample). -/
theorem enforce_flagged_plain_bound (l : List Classified) :
    (enforce l).countP flaggedPlain ≤ 1 ∧
    (∀ j, j < l.length → flaggedPlain (l.getD j dummyClassified) = true →
      j ≠ keptIndex l → 1 < l.countP flaggedPlain →
      ((enforce l).getD j dummyClassified).family ≠ Family.plain ∧
      ((enforce l).getD j dummyClassified).isPlain = false) := by
  refine ⟨enforce_countP_le l, ?_⟩
  intro j hj hflag hkept hgt
  have h : ¬ (l.countP flaggedPlain ≤ 1) := by omega
  simp only [enforce]
  rw [if_neg h]
  exact goEnforce_getD _ l 0 0 none j hj hflag (by omega)

/-- Witness for C1: the sample deck has three flagged plain slides;
after enforcement at most one remains and the slide at position 1 (not
the kept one) got a non-plain family. -/
theorem enforce_flagged_plain_bound_witness :
    (enforce sampleClassified).countP flaggedPlain ≤ 1 ∧
    (((enforce sampleClassified).getD 1 dummyClassified).family ≠ Family.plain ∧
     ((enforce sampleClassified).getD 1 dummyClassified).isPlain = false) :=
  ⟨(enforce_flagged_plain_bound sampleClassified).1,
   (enforce_flagged_plain_bound sampleClassified).2 1 (by decide) (by decide)
     (by decide) (by decide)⟩

/-- Counterexample for C1 as stated: a deck whose two trailing slides
have a gradient background and no body blocks classifies them to the
plain family without the isPlain flag; the enforcer partitions on the
flag, leaves both untouched, and the returned sequence has two slides
of the plain family. -/
theorem plain_family_count_two :
    (pipeline cexBlueprint).countP (fun c => c.family == Family.plain) = 2 ∧
    ¬ ((pipeline cexBlueprint).countP (fun c => c.family == Family.plain) ≤ 1) := by
  constructor <;> decide

/-- Claim C7: Variety Enforcement is idempotent, and a deck with at most
one flagged plain slide is returned unchanged. -/
theorem enforce_idempotent (l : List Classified) :
    enforce (enforce l) = enforce l ∧
    (l.countP flaggedPlain ≤ 1 → enforce l = l) :=
  ⟨enforce_noop_of_le (enforce l) (enforce_countP_le l),
   fun h => enforce_noop_of_le l h⟩

/-- Witness for C7: idempotence on the sample deck, and the unchanged
return on a deck with no flagged plain slide. -/
theorem enforce_idempotent_witness :
    enforce (enforce sampleClassified) = enforce sampleClassified ∧
    enforce (classifyDeck (normalizeDeck cexBlueprint))
      = classifyDeck (normalizeDeck cexBlueprint) :=
  ⟨(enforce_idempotent sampleClassified).1,
   (enforce_idempotent (classifyDeck (normalizeDeck cexBlueprint))).2 (by decide)⟩

theorem classify_head_hero (r : RawRecord) :
    (classify (normalizeRecord 0 r)).family = Family.hero := rfl

theorem flaggedPlain_head_hero (r : RawRecord) :
    flaggedPlain (classify (normalizeRecord 0 r)) = false := by
  simp [flaggedPlain, classify_head_hero, notHero]

theorem goEnforce_cons_not_flagged (kept i p : Nat) (prev : Option Family)
    (c : Classified) (rest : List Classified) (h : flaggedPlain c = false) :
    goEnforce kept i p prev (c :: rest)
      = c :: goEnforce kept (i + 1) p (some c.family) rest := by
  have hcond : (flaggedPlain c && (i != kept)) = false := by rw [h]; rfl
  simp only [goEnforce]
  rw [if_neg (by simp [hcond])]

/-- Claim C4: the slide at index 0 always leaves the pipeline with the
hero family: the normalizer tags position 0 forceHero, the classifier
maps that tag to hero unconditionally, and the enforcer never touches a
hero slide. -/
theorem pipeline_head_hero (rs : List RawRecord) (h : rs ≠ []) :
    ((pipeline rs).head?.map (fun c => c.family)) = some Family.hero := by
  obtain ⟨r, rest, rfl⟩ := List.exists_cons_of_ne_nil h
  show ((enforce (classifyDeck (normalizeDeck (r :: rest)))).head?.map
    (fun c => c.family)) = some Family.hero
  have hhd : classifyDeck (normalizeDeck (r :: rest))
      = classify (normalizeRecord 0 r) :: classifyDeck (normalizeGo 1 rest) := rfl
  rw [hhd]
  by_cases hcnt : (classify (normalizeRecord 0 r) :: classifyDeck (normalizeGo 1 rest)).countP
      flaggedPlain ≤ 1
  · rw [enforce_noop_of_le _ hcnt]
    simp [classify_head_hero]
  · simp only [enforce]
    rw [if_neg hcnt]
    rw [goEnforce_cons_not_flagged _ _ _ _ _ _ (flaggedPlain_head_hero r)]
    simp [classify_head_hero]

/-- Witness for C4: the one-record blueprint resolves its head to hero. -/
theorem pipeline_head_hero_witness :
    ((pipeline [heroRaw]).head?.map (fun c => c.family)) = some Family.hero :=
  pipeline_head_hero [heroRaw] (by simp)

/-! ### Bounded fit (claim C5) -/

theorem shrinkSearchGo_bound (hl sl : Nat) (body : List Nat) :
    ∀ (scales : List Scale) (n : Nat) (r : Nat × Scale),
    shrinkSearchGo hl sl body n scales = some r → r.1 ≤ n + scales.length := by
  intro scales
  induction scales with
  | nil => intro n r h; simp [shrinkSearchGo] at h
  | cons sc rest ih =>
    intro n r h
    simp only [shrinkSearchGo] at h
    by_cases hf : fitsAt sc hl sl body = true
    · rw [if_pos hf] at h
      obtain rfl := (Option.some.inj h).symm
      simp only [List.length_cons]
      omega
    · rw [if_neg hf] at h
      have := ih (n + 1) r h
      simp only [List.length_cons]
      omega

theorem shrinkScales_length : shrinkScales.length = 11 := rfl

theorem truncLoop_fits_or_nil (hl sl : Nat) :
    ∀ (fuel : Nat) (body : List Nat), body.length ≤ fuel →
    fitsAt floorScale hl sl (truncLoop hl sl fuel body) = true ∨
    truncLoop hl sl fuel body = [] := by
  intro fuel
  induction fuel with
  | zero =>
    intro body h
    right
    have hb : body = [] := List.eq_nil_of_length_eq_zero (Nat.le_zero.mp h)
    simp [truncLoop, hb]
  | succ fuel ih =>
    intro body h
    by_cases hf : fitsAt floorScale hl sl body = true
    · left
      simp only [truncLoop]
      rw [if_pos hf]
      exact hf
    · simp only [truncLoop]
      rw [if_neg hf]
      apply ih
      have := List.length_dropLast body
      omega

theorem nudgeOne_bound (placed : List Box) : ∀ (fuel : Nat) (b : Box),
    (nudgeOne placed b fuel).2 ≤ fuel := by
  intro fuel
  induction fuel with
  | zero => intro b; simp [nudgeOne]
  | succ fuel ih =>
    intro b
    simp only [nudgeOne]
    by_cases ho : placed.any (fun b2 => boxesOverlap b2 b) = true
    · rw [if_pos ho]
      have := ih { b with x := b.x + nudgeStep }
      simpa using this
    · rw [if_neg ho]
      simp

theorem resolveGo_bound : ∀ (bs placed : List Box) (acc : Nat),
    (resolveGo placed acc bs).2 ≤ acc + maxNudgeAttempts * bs.length := by
  intro bs
  induction bs with
  | nil => intro placed acc; simp [resolveGo]
  | cons b rest ih =>
    intro placed acc
    simp only [resolveGo]
    have h1 := nudgeOne_bound placed maxNudgeAttempts b
    have h2 := ih ((nudgeOne placed b maxNudgeAttempts).1 :: placed)
      (acc + (nudgeOne placed b maxNudgeAttempts).2)
    simp only [List.length_cons, Nat.mul_succ]
    omega

/-- Claim C5, corrected: the Fit Validator is bounded (at most eleven
shrink iterations and eight nudge attempts per box) and reports
overflowing only at the floor scale when even the fully truncated slide
(headline and subtitle alone) exceeds the bound; the body can be empty
then, which the claim as stated excludes. -/
theorem fitValidate_bounded (s : ResolvedSlide) :
    (fitValidate s).shrinkIters ≤ 11 ∧
    (fitValidate s).nudgeAttempts ≤ maxNudgeAttempts * s.boxes.length ∧
    ((fitValidate s).overflowing = true →
      (fitValidate s).appliedScale = floorScale ∧
      fitsAt floorScale s.headlineLen s.subtitleLen [] = false) := by
  have hnudge : (if positionedFamily s.family then resolveGo [] 0 s.boxes
      else (s.boxes, 0)).2 ≤ maxNudgeAttempts * s.boxes.length := by
    by_cases hp : positionedFamily s.family = true
    · rw [if_pos hp]
      simpa using resolveGo_bound s.boxes [] 0
    · rw [if_neg hp]
      simp
  cases hm : shrinkSearchGo s.headlineLen s.subtitleLen s.bodyLens 0 shrinkScales with
  | some r =>
    refine ⟨?_, ?_, ?_⟩
    · simp only [fitValidate, hm]
      have := shrinkSearchGo_bound _ _ _ shrinkScales 0 r hm
      simpa [shrinkScales_length] using this
    · simp only [fitValidate, hm]
      exact hnudge
    · simp only [fitValidate, hm]
      intro h
      cases h
  | none =>
    refine ⟨?_, ?_, ?_⟩
    · simp only [fitValidate, hm, shrinkScales_length]
      exact Nat.le_refl 11
    · simp only [fitValidate, hm]
      exact hnudge
    · simp only [fitValidate, hm]
      intro h
      refine ⟨trivial, ?_⟩
      have h2 : fitsAt floorScale s.headlineLen s.subtitleLen
          (truncLoop s.headlineLen s.subtitleLen s.bodyLens.length s.bodyLens) = false := by
        simpa using h
      rcases truncLoop_fits_or_nil s.headlineLen s.subtitleLen s.bodyLens.length
          s.bodyLens (Nat.le_refl _) with hfit | hnil
      · rw [hfit] at h2
        cases h2
      · rw [hnil] at h2
        exact h2

/-- Witness for C5: the huge-headline slide triggers the overflow report
at the floor scale. -/
theorem fitValidate_bounded_witness :
    (fitValidate overflowSlide).shrinkIters ≤ 11 ∧
    ((fitValidate overflowSlide).appliedScale = floorScale ∧
     fitsAt floorScale overflowSlide.headlineLen overflowSlide.subtitleLen [] = false) :=
  ⟨(fitValidate_bounded overflowSlide).1,
   (fitValidate_bounded overflowSlide).2.2 (by decide)⟩

/-- Counterexample for C5 as stated: a slide with no body blocks at all
still gets overflowing = true when its headline cannot fit at the floor
scale, so an overflow report does not imply a non-empty body. -/
theorem overflow_with_empty_body :
    (fitValidate overflowSlide).overflowing = true ∧ overflowSlide.bodyLens = [] :=
  ⟨by decide, rfl⟩
